import Mathlib

/-!
Verification of the GlowFM-Traffic-Crawler traffic dashboard and its
scraping/normalization backend, as described by the repository's design
specification.  The repository's source tree holds the frontend
(src/frontend/src/App.js, two iterations of the dashboard component); the
backend pipeline (Extractor, Normalizer, Deduplicator, Refresh
Orchestrator, Store, Query/Filter Service) is modelled from the
specification where noted.
-/

namespace Traffic

/-! ## Data model (spec section 3) -/

/-- A traffic-jam disruption record; delays in whole minutes, lengths in km. -/
structure TrafficJam where
  id : String
  road : String
  direction : String
  location : String
  delay_minutes : Nat
  length_km : ℚ
  cause : String
deriving DecidableEq, Repr

/-- Camera type is a fixed enumeration, never raw source text. -/
inductive CameraType where
  | mobile
  | fixedActive
  | dynamicSpeedCheck
deriving DecidableEq, Repr

/-- A speed-camera sighting record. -/
structure SpeedCamera where
  id : String
  road : String
  location : String
  direction : String
  camera_type : CameraType
  is_active : Bool
deriving DecidableEq, Repr

/-- The Store's current snapshot: jams, cameras and the timestamp of the
last successful cycle. -/
structure Store where
  jams : List TrafficJam
  cameras : List SpeedCamera
  last_updated : Nat
deriving DecidableEq, Repr

/-! ## Frontend embedding (src/frontend/src/App.js, first version) -/

/-- TARGET_ROADS (App.js line 16): roads the Glow FM dashboard always
filters on. -/
def TARGET_ROADS : List String :=
  ["A2", "A16", "A50", "A58", "A59", "A65", "A67", "A73", "A76", "A270",
   "N2", "N69", "N266", "N270", "N279"]

/-- TARGET_CITIES (App.js lines 17-83): cities, exits, junctions, bridges
and tunnels the Glow FM dashboard always filters on. -/
def TARGET_CITIES : List String :=
  ["Eindhoven", "Venlo", "Weert", "\x27s-Hertogenbosch", "Roermond", "Maasbracht",
   "Nijmegen", "Oss", "Zonzeel", "Breda", "Tilburg", "Rotterdam", "Deurne",
   "Helmond", "Venray", "Heerlen", "Maastricht", "Belgische Grens", "Duitse Grens",
   "Valkenswaard", "Moerdijkbrug", "Culemborg",
   "Utrecht-Centrum", "Nieuwegein", "Nieuwegein-Zuid", "Vianen", "Everdingen",
   "Beesd", "Geldermalsen", "Waardenburg", "Zaltbommel", "Kerkdriel", "Rosmalen",
   "Veghel", "St. Michielsgestel", "Vught", "\x27s-Hertogenbosch-Centrum", "Boxtel-Noord",
   "Boxtel", "Best-West", "Best", "Eindhoven-Airport", "Eindhoven-Centrum",
   "Meerhoven-Zuid", "Veldhoven", "Veldhoven-Zuid", "High Tech Campus", "Waalre",
   "Leende", "Maarheeze", "Budel", "Weert-Noord", "Nederweert", "Kelpen-Oler",
   "Grathem", "Wessem", "St. Joost", "Echt", "Roosteren", "Born", "Urmond",
   "Elsloo", "Ulestraten", "Meerssen", "Maastricht-Noord", "Maastricht-Centrum Noord",
   "Maastricht-Centrum Zuid", "Maastricht-Zuid", "Gronsveld", "Oost-Maarland", "Eijsden",
   "Rotterdam-Prins Alexander", "Rotterdam-Kralingen", "Capelle aan den IJssel",
   "Rotterdam-Feijenoord", "Hendrik-Ido-Ambacht", "Zwijndrecht", "Dordrecht-Centrum",
   "Dordrecht", "Dordrecht-Willemsdorp", "Zevenbergschen Hoek", "Breda-Noord",
   "Breda-West", "Princeville", "Industrie Breda 6000-7000",
   "Industrie Ekkersrijt", "Son en Breugel", "St. Oedenrode", "Eerde", "Veghel-Noord",
   "Volkel", "Zeeland", "Nistelrode", "Ravenstein", "Valburg", "Heteren", "Renkum", "Arnhem",
   "Oirschot", "Moergestel", "Tilburg-Centrum-Oost", "Tilburg-Centrum-West",
   "Tilburg-Reeshof", "Bavel", "Ulvenhout",
   "Terheijden", "Made", "Oosterhout", "Raamsdonksveer", "Waspik", "Sprang-Capelle-West",
   "Waalwijk", "Waalwijk-Centrum", "Waalwijk-Oost", "Drunen-West", "Heusden",
   "Nieuwkuijk", "Vlijmen", "Ring \x27s-Hertogenbosch-West", "Engelen",
   "\x27s-Hertogenbosch-Maaspoort", "Rosmalen-Oost", "Kruisstraat", "Nuland", "Oss-Oost",
   "Vught-Centrum", "Vught-Zuid", "Helvoirt", "Haaren", "Biezenmortel", "Udenhout",
   "Berkel-Enschot", "Tilburg-Noord",
   "Hapert", "Eersel", "Geldrop", "Someren", "Asten", "Liessel", "Panningen",
   "Venlo-Noordwest", "Noorderbrug", "Velden",
   "Beuningen", "Wijchen", "Nijmegen-Dukenburg", "Malden", "Cuijk", "Haps",
   "Boxmeer", "Vierlingsbeek", "Venray-Noord", "Horst-Noord", "Horst", "Grubbenvorst",
   "Venlo-West", "Maasbree", "Blerick", "Zuiderbrug", "Venlo-Zuid", "Belfeld",
   "Beesel", "Roermond", "Roermond-Oost", "Linne",
   "Stein", "Geleen", "Spaubeek", "Nuth", "Heerlen-Noord", "Simpelveld",
   "Knp. Oudenrijn", "Knp. Everdingen", "Knp. Deil", "Knp. Empel", "Knp. Hintham",
   "Knp. Ekkersweijer", "Knp. Batadorp", "Knp. De Hogt", "Knp. Leenderheide",
   "Knp. Het Vonderen", "Knp. Kerensheide", "Knp. Kruisdonk", "Knp. Terbregseplein",
   "Knp. Ridderkerk", "Knp. Klaverpolder", "Knp. Galder", "Knp. Paalgraven",
   "Knp. Bankhoef", "Knp. Ewijk", "Knp. Grijsoord", "Knp. De Baars", "Knp. St. Annabosch",
   "Knp. Hooipolder", "Knp. Vught", "Knp. Zaarderheiken", "Knp. Neerbosch",
   "Knp. Rijkevoort", "Knp. Tiglia", "Knp. Ten Esschen", "Knp. Kunderberg",
   "Van Brienenoordbrug", "Drechttunnel", "Tacitusbrug", "Swalmentunnel", "Roertunnel"]

/-- DELAY_OPTIONS (App.js lines 85-93): value/label pairs of the Glow FM
delay filter buttons. -/
def DELAY_OPTIONS : List (Nat × String) :=
  [(1, "1+ minuten"), (5, "5+ minuten"), (10, "10+ minuten"),
   (15, "15+ minuten"), (20, "20+ minuten"), (25, "25+ minuten"),
   (30, "30+ minuten")]

/-- The numeric values offered by DELAY_OPTIONS. -/
def delayOptionValues : List Nat := DELAY_OPTIONS.map Prod.fst

/-- DELAY_FILTERS (App.js second version, lines 359-367): value/label
pairs of the ANWB monitor's delay dropdown. -/
def DELAY_FILTERS : List (Nat × String) :=
  [(1, "1+ min"), (5, "5+ min"), (10, "10+ min"),
   (15, "15+ min"), (20, "20+ min"), (25, "25+ min"), (30, "30+ min")]

/-- The numeric values offered by DELAY_FILTERS. -/
def delayFilterValues : List Nat := DELAY_FILTERS.map Prod.fst

/-- The `minDelay` React state of the first App version: the empty string
(useState initial value, no filter) or a number picked from the option
list.  JavaScript strict equality distinguishes the two shapes. -/
inductive DelayFilterState where
  | empty
  | num (n : Nat)
deriving DecidableEq, Repr

/-- handleDelayFilter (App.js lines 135-137): setMinDelay with the update
prev === delay ? (empty string) : delay.  Picking the already-selected
value clears the filter, any other value selects it. -/
def handleDelayFilter (delay : Nat) (prev : DelayFilterState) : DelayFilterState :=
  if prev = .num delay then .empty else .num delay

/-- JavaScript truthiness test `if (minDelay)` (App.js line 107): the
empty string and the number 0 are falsy. -/
def minDelayParam : DelayFilterState → Option Nat
  | .empty => none
  | .num v => if v = 0 then none else some v

/-- URLSearchParams built by fetchTrafficData (App.js lines 100-109):
`roads` and `cities` are always appended as comma-joined lists, and
`min_delay` only when a delay filter is selected. -/
def buildParamsV1 (minDelay : DelayFilterState) : List (String × String) :=
  [("roads", String.intercalate "," TARGET_ROADS),
   ("cities", String.intercalate "," TARGET_CITIES)] ++
  (match minDelayParam minDelay with
   | some v => [("min_delay", toString v)]
   | none => [])

/-- The filter state of the second App version (lines 373-377): road,
city and minDelay are strings, initially empty. -/
structure FiltersV2 where
  road : String
  city : String
  minDelay : String
deriving DecidableEq, Repr

/-- URLSearchParams built by the second version's fetchTrafficData
(App.js lines 424-427): each of road, city and min_delay is appended
only when the corresponding filter string is non-empty (truthy). -/
def buildParamsV2 (f : FiltersV2) : List (String × String) :=
  (if f.road = "" then [] else [("road", f.road)]) ++
  (if f.city = "" then [] else [("city", f.city)]) ++
  (if f.minDelay = "" then [] else [("min_delay", f.minDelay)])

/-- HTTP methods used by the dashboard. -/
inductive Method where
  | get
  | post
deriving DecidableEq, Repr

/-- An HTTP request issued by the dashboard. -/
structure Request where
  method : Method
  path : String
  params : List (String × String)
deriving DecidableEq, Repr

/-- The requests issued by one run of fetchTrafficData (App.js lines
95-120): a single GET of /api/traffic with the built parameters. -/
def fetchTrafficDataRequests (minDelay : DelayFilterState) : List Request :=
  [⟨.get, "/api/traffic", buildParamsV1 minDelay⟩]

/-- The requests issued by one run of refreshData (App.js lines 122-133):
a POST of /api/refresh followed by a fetchTrafficData poll. -/
def refreshDataRequests (minDelay : DelayFilterState) : List Request :=
  ⟨.post, "/api/refresh", []⟩ :: fetchTrafficDataRequests minDelay

/-! ## Character-level string helpers

String processing is done over the underlying character lists so that all
definitions evaluate by kernel reduction. -/

def commaChar : Char := Char.ofNat 44

def spaceChar : Char := Char.ofNat 32

def dotChar : Char := Char.ofNat 46

/-- Whether `pat` occurs as a contiguous run inside `hay`. -/
def listContains (hay pat : List Char) : Bool :=
  match hay with
  | [] => pat.isEmpty
  | _ :: t => pat.isPrefixOf hay || listContains t pat

/-- Substring test on strings. -/
def strContains (s pat : String) : Bool :=
  listContains s.data pat.data

/-- Numeric value of a run of decimal digits (0 for the empty run). -/
def natOfDigits (l : List Char) : Nat :=
  l.foldl (fun n c => 10 * n + (c.toNat - 48)) 0

/-- Strict decimal parse: a non-empty all-digit string, otherwise none.
Rejects signs, spaces and any non-digit character. -/
def decimalNat? (s : String) : Option Nat :=
  if s.data ≠ [] ∧ s.data.all Char.isDigit then some (natOfDigits s.data)
  else none

/-! ## Query/Filter Service (spec sections 4.5 and 6) -/

/-- Validated filters of a traffic query. -/
structure QueryFilters where
  road : Option String
  city : Option String
  min_delay : Option Nat
deriving DecidableEq, Repr

/-- Modelled from the spec: the Query/Filter Service's per-jam filter
predicate (road exact match against the canonical road code, city as a
location substring, min_delay as an inclusive lower bound on
delay_minutes; absent filters always pass).  The Query/Filter Service
itself is not present under src/. -/
def jamMatches (f : QueryFilters) (j : TrafficJam) : Bool :=
  (match f.road with
   | none => true
   | some r => j.road == r) &&
  (match f.city with
   | none => true
   | some c => strContains j.location c) &&
  (match f.min_delay with
   | none => true
   | some m => decide (m ≤ j.delay_minutes))

/-- The response shape of GET /api/traffic (spec section 6). -/
structure QueryResponse where
  total_jams : Nat
  filtered_jams : Nat
  traffic_jams : List TrafficJam
  speed_cameras : List SpeedCamera
  last_updated : Nat
deriving DecidableEq, Repr

/-- Modelled from the spec: the Query/Filter Service answers a read over
the current snapshot; no filter arguments means the full snapshot.  The
service is not present under src/. -/
def query (st : Store) (f : QueryFilters) : QueryResponse :=
  let js := st.jams.filter (jamMatches f)
  { total_jams := st.jams.length
    filtered_jams := js.length
    traffic_jams := js
    speed_cameras := st.cameras
    last_updated := st.last_updated }

/-- Raw (unvalidated) query-string parameters of GET /api/traffic. -/
structure RawQuery where
  road : Option String
  city : Option String
  min_delay : Option String
deriving DecidableEq, Repr

/-- An HTTP response of the traffic endpoint. -/
structure HttpResponse where
  status : Nat
  body : Option QueryResponse
deriving DecidableEq, Repr

/-- Modelled from the spec: the GET /api/traffic handler validates
min_delay before filtering; a non-numeric min_delay is rejected with a
422 client error (never coerced or ignored) and the Store is returned
unchanged.  The handler is not present under src/. -/
def handleTraffic (st : Store) (q : RawQuery) : HttpResponse × Store :=
  match q.min_delay with
  | none => (⟨200, some (query st ⟨q.road, q.city, none⟩)⟩, st)
  | some s =>
    match decimalNat? s with
    | some m => (⟨200, some (query st ⟨q.road, q.city, some m⟩)⟩, st)
    | none => (⟨422, none⟩, st)

/-! ## Refresh Orchestrator (spec sections 4.4, 5 and 7) -/

/-- Orchestrator phases; Success and Failed immediately return to Idle,
so the persistent phase is Idle or Running. -/
inductive OrchPhase where
  | idle
  | running
deriving DecidableEq, Repr

/-- The orchestrator-owned system state: phase flag, the Store it
publishes to, a counter of started cycles and the last failure reason. -/
structure SystemState where
  phase : OrchPhase
  store : Store
  cyclesStarted : Nat
  lastFailure : Option String
deriving DecidableEq, Repr

/-- How a scrape cycle in flight ends: a successful record set with its
timestamp, or a fetch failure with a reason. -/
inductive CycleOutcome where
  | success (jams : List TrafficJam) (cameras : List SpeedCamera) (t : Nat)
  | failed (reason : String)
deriving DecidableEq, Repr

/-- Events driving the orchestrator: a refresh trigger (timer tick or
manual button) and completion of the cycle in flight. -/
inductive Event where
  | trigger
  | complete (o : CycleOutcome)
deriving DecidableEq, Repr

/-- What the orchestrator tells the event source. -/
inductive Reply where
  | started
  | alreadyRunning
  | done
  | ignored
deriving DecidableEq, Repr

/-- Modelled from the spec: the Refresh Orchestrator state machine
(Idle to Running on a trigger, triggers while Running are a no-op with
an already-running reply, completion publishes the snapshot atomically
on success and preserves it on failure while recording the reason).
The orchestrator is not present under src/. -/
def step (s : SystemState) (e : Event) : SystemState × Reply :=
  match e with
  | .trigger =>
    match s.phase with
    | .running => (s, .alreadyRunning)
    | .idle => ({ s with phase := .running, cyclesStarted := s.cyclesStarted + 1 }, .started)
  | .complete o =>
    match s.phase with
    | .idle => (s, .ignored)
    | .running =>
      match o with
      | .success jams cameras t =>
        ({ s with phase := .idle, store := ⟨jams, cameras, t⟩ }, .done)
      | .failed reason =>
        ({ s with phase := .idle, lastFailure := some reason }, .done)

/-- Number of events in the trace whose step changed the Store. -/
def storeChanges (s : SystemState) : List Event → Nat
  | [] => 0
  | e :: es =>
    let s2 := (step s e).1
    (if s2.store = s.store then 0 else 1) + storeChanges s2 es

/-! ## Normalizer (spec section 4.2), character-level parsing -/

/-- Splits a character list at every occurrence of `c` (separators are
dropped; adjacent separators give empty segments). -/
def splitOnChar (c : Char) : List Char → List (List Char)
  | [] => [[]]
  | x :: xs =>
    let r := splitOnChar c xs
    if x = c then [] :: r
    else
      match r with
      | a :: as => (x :: a) :: as
      | [] => [[x]]

/-- Drops leading and trailing spaces. -/
def trimChars (l : List Char) : List Char :=
  ((l.dropWhile (· = spaceChar)).reverse.dropWhile (· = spaceChar)).reverse

/-- The space-separated words of a character list. -/
def wordsOf (l : List Char) : List (List Char) :=
  (splitOnChar spaceChar l).filter (fun w => !w.isEmpty)

/-- Road-code pattern of the spec: one uppercase letter followed by one
to three digits. -/
def isRoadCode (w : List Char) : Bool :=
  match w with
  | [] => false
  | c :: rest =>
    c.isUpper && !rest.isEmpty && decide (rest.length ≤ 3) && rest.all Char.isDigit

/-- Modelled from the spec: the Normalizer looks for a word matching the
known-road pattern; candidates without one are discarded.  The
Normalizer is not present under src/. -/
def findRoad (raw : List Char) : Option (List Char) :=
  (wordsOf raw).find? isRoadCode

/-- Joins words back with single spaces. -/
def joinWords : List (List Char) → List Char
  | [] => []
  | [w] => w
  | w :: ws => w ++ spaceChar :: joinWords ws

/-- The canonical sentinel for unresolved fields. -/
def unknownSentinel : String := "unknown"

/-- Modelled from the spec: direction resolution keeps the directional
phrase from its marker word (richting or naar) to the end of the
segment; without a marker the sentinel is used. -/
def directionOf (seg : List Char) : List Char :=
  let ws := wordsOf seg
  match ws.dropWhile (fun w => !(w == "richting".data || w == "naar".data)) with
  | [] => unknownSentinel.data
  | ds => joinWords ds

/-- Value of the first digit run in the segment, 0 when there is none
(the spec maps an absent quantity to 0, never discarding the record). -/
def firstNatIn (seg : List Char) : Nat :=
  natOfDigits ((seg.dropWhile (fun c => !c.isDigit)).takeWhile Char.isDigit)

/-- Value of the first decimal number (digits, optionally a dot and more
digits) in the segment, 0 when there is none; the digits before and
after the dot form the mantissa and the fractional digit count the
negative exponent. -/
def firstRatIn (seg : List Char) : ℚ :=
  let ds := seg.dropWhile (fun c => !c.isDigit)
  let ip := ds.takeWhile Char.isDigit
  let rest := ds.dropWhile Char.isDigit
  let fp :=
    match rest with
    | c :: r2 => if c = dotChar then r2.takeWhile Char.isDigit else []
    | [] => []
  Rat.ofScientific (natOfDigits (ip ++ fp)) true fp.length

/-- Modelled from the spec: the fixed cause categories in their fixed
priority order (accident, roadworks, weather, congestion-volume, event)
with Dutch keyword lists; first matching category wins. -/
def causeCategories : List (String × List String) :=
  [("accident", ["ongeval", "ongeluk", "aanrijding", "botsing"]),
   ("roadworks", ["wegwerkzaamheden", "werkzaamheden"]),
   ("weather", ["gladheid", "sneeuw", "regen", "mist", "storm"]),
   ("congestion-volume", ["drukte", "spits"]),
   ("event", ["evenement"])]

/-- Modelled from the spec: keyword-based cause classification, first
match in the fixed priority order wins, otherwise the sentinel. -/
def classifyCause (raw : List Char) : String :=
  match causeCategories.find? (fun cat => cat.2.any (fun k => listContains raw k.data)) with
  | some cat => cat.1
  | none => unknownSentinel

/-- Modelled from the spec: the known-city vocabulary the Normalizer
resolves location descriptors against. -/
def normalizerCityVocab : List String :=
  ["Eindhoven", "Venlo", "Weert", "Roermond", "Breda", "Tilburg",
   "Rotterdam", "Maastricht", "Nijmegen", "Oss", "Helmond"]

/-- Modelled from the spec: location resolution against the known-city
vocabulary; unresolved text maps to the sentinel, never raw markup. -/
def resolveLocation (raw : List Char) : String :=
  match normalizerCityVocab.find? (fun c => listContains raw c.data) with
  | some c => c
  | none => unknownSentinel

/-- Content fingerprint of the spec: road, direction signature, location
anchor and cause category. -/
def fingerprintOf (road direction location cause : String) : String :=
  road ++ "|" ++ direction ++ "|" ++ location ++ "|" ++ cause

/-- Fingerprint of a jam record (its id does not participate). -/
def jamFingerprint (j : TrafficJam) : String :=
  fingerprintOf j.road j.direction j.location j.cause

/-- Modelled from the spec: normalize(candidate) resolves the road code
(discarding candidates without one), the directional phrase, the delay
and length quantities (0 when absent), the location descriptor and the
cause category, and derives the id from the content fingerprint.  The
Normalizer is not present under src/. -/
def normalizeJam (raw : String) : Option TrafficJam :=
  match findRoad raw.data with
  | none => none
  | some roadChars =>
    let road := String.mk roadChars
    let segs := (splitOnChar commaChar raw.data).map trimChars
    let direction := String.mk (directionOf (segs.headD []))
    let location := resolveLocation raw.data
    let delay :=
      match segs.find? (fun seg => listContains seg "vertraging".data) with
      | some seg => firstNatIn seg
      | none => 0
    let len :=
      match segs.find? (fun seg => listContains seg "lengte".data) with
      | some seg => firstRatIn seg
      | none => 0
    let cause := classifyCause raw.data
    some { id := fingerprintOf road direction location cause
           road := road
           direction := direction
           location := location
           delay_minutes := delay
           length_km := len
           cause := cause }

/-! ## Deduplicator (spec section 4.3) -/

/-- A normalized entity together with the name of the extraction strategy
that found it (kept for dedup tie-breaking and diagnostics). -/
structure Normalized (α : Type) where
  entity : α
  strategy : String
deriving DecidableEq, Repr

/-- Number of unknown-sentinel fields of a jam record. -/
def unknownCount (j : TrafficJam) : Nat :=
  (if j.direction = unknownSentinel then 1 else 0) +
  (if j.location = unknownSentinel then 1 else 0) +
  (if j.cause = unknownSentinel then 1 else 0)

/-- Modelled from the spec: among fingerprint-equal jam candidates the
one with the fewest unknown sentinels wins; on a tie the structurally
extracted one wins over the text-based one. -/
def betterJam (c a : Normalized TrafficJam) : Bool :=
  decide (unknownCount c.entity < unknownCount a.entity) ||
  (unknownCount c.entity == unknownCount a.entity &&
   c.strategy == "structural" && !(a.strategy == "structural"))

/-- Camera-type names used in fingerprints. -/
def cameraTypeName : CameraType → String
  | .mobile => "mobile"
  | .fixedActive => "fixed-active"
  | .dynamicSpeedCheck => "dynamic-speed-check"

/-- Fingerprint of a camera sighting: road, location anchor and
camera type (its id does not participate). -/
def cameraFingerprint (c : SpeedCamera) : String :=
  fingerprintOf c.road c.direction c.location (cameraTypeName c.camera_type)

/-- Number of unknown-sentinel fields of a camera record. -/
def cameraUnknownCount (c : SpeedCamera) : Nat :=
  (if c.location = unknownSentinel then 1 else 0) +
  (if c.direction = unknownSentinel then 1 else 0)

/-- Modelled from the spec: camera tie-breaking, as for jams. -/
def betterCamera (c a : Normalized SpeedCamera) : Bool :=
  decide (cameraUnknownCount c.entity < cameraUnknownCount a.entity) ||
  (cameraUnknownCount c.entity == cameraUnknownCount a.entity &&
   c.strategy == "structural" && !(a.strategy == "structural"))

/-- One fold step of the Deduplicator: a candidate whose fingerprint is
already present replaces the incumbent exactly when it is better,
otherwise it is appended as a new entity. -/
def dedupeStep {α : Type} (fp : α → String) (better : α → α → Bool)
    (acc : List α) (c : α) : List α :=
  if acc.any (fun a => fp a == fp c) then
    acc.map (fun a => if fp a == fp c then (if better c a then c else a) else a)
  else acc ++ [c]

/-- Modelled from the spec: dedupe(entities) retains exactly one record
per fingerprint per cycle, with the documented deterministic
tie-breaking.  The Deduplicator is not present under src/. -/
def dedupe {α : Type} (fp : α → String) (better : α → α → Bool)
    (l : List α) : List α :=
  l.foldl (dedupeStep fp better) []

/-- Writes the fingerprint-derived id into a jam record. -/
def withJamId (j : TrafficJam) : TrafficJam :=
  { j with id := jamFingerprint j }

/-- Writes the fingerprint-derived id into a camera record. -/
def withCameraId (c : SpeedCamera) : SpeedCamera :=
  { c with id := cameraFingerprint c }

/-- One scrape cycle's result (spec section 3). -/
structure ScrapeCycleResult where
  started_at : Nat
  finished_at : Nat
  success : Bool
  jams : List TrafficJam
  cameras : List SpeedCamera
  error : Option String
deriving DecidableEq, Repr

/-- Modelled from the spec: the record set a successful cycle persists,
produced by deduplicating the normalized candidates of both entity
types and stamping fingerprint-derived ids. -/
def produceCycleResult (jams : List (Normalized TrafficJam))
    (cameras : List (Normalized SpeedCamera)) (t0 t1 : Nat) : ScrapeCycleResult :=
  { started_at := t0
    finished_at := t1
    success := true
    jams := (dedupe (fun n => jamFingerprint n.entity) betterJam jams).map
      (fun n => withJamId n.entity)
    cameras := (dedupe (fun n => cameraFingerprint n.entity) betterCamera cameras).map
      (fun n => withCameraId n.entity)
    error := none }

/-! ## Reachable frontend filter states -/

/-- The minDelay states the first App version can reach: the initial
empty string, and every toggle with a DELAY_OPTIONS button value
(App.js lines 238-241 call handleDelayFilter with option.value only). -/
inductive ReachableDelayState : DelayFilterState → Prop where
  | init : ReachableDelayState .empty
  | toggle (d : Nat) (s : DelayFilterState) :
      d ∈ delayOptionValues → ReachableDelayState s →
      ReachableDelayState (handleDelayFilter d s)

/-- The minDelay strings the second App version can reach: the initial
and cleared empty string, and the dropdown option values (App.js lines
592-601: the select offers the empty Any Delay option and
DELAY_FILTERS values only). -/
inductive ReachableMinDelayV2 : String → Prop where
  | init : ReachableMinDelayV2 ""
  | select (v : String) :
      v = "" ∨ v ∈ delayFilterValues.map toString → ReachableMinDelayV2 v

/-! ## Helper lemmas -/

theorem dedupeStep_nodup_fp {α : Type} (fp : α → String) (better : α → α → Bool)
    (acc : List α) (c : α) (h : (acc.map fp).Nodup) :
    ((dedupeStep fp better acc c).map fp).Nodup := by
  unfold dedupeStep
  by_cases hany : acc.any (fun a => fp a == fp c)
  · rw [if_pos hany]
    have hmap : (acc.map (fun a => if fp a == fp c then (if better c a then c else a) else a)).map fp
        = acc.map fp := by
      rw [List.map_map]
      apply List.map_congr_left
      intro a _
      by_cases hfa : fp a = fp c
      · simp only [Function.comp]
        rw [if_pos (by simpa using hfa)]
        by_cases hb : better c a
        · rw [if_pos hb]; exact hfa.symm
        · rw [if_neg hb]
      · simp only [Function.comp]
        rw [if_neg (by simpa using hfa)]
    rw [hmap]; exact h
  · rw [if_neg hany]
    rw [List.map_append]
    rw [List.nodup_append]
    refine ⟨h, List.nodup_singleton _, ?_⟩
    intro x hx hx1
    simp only [List.map_cons, List.map_nil, List.mem_singleton] at hx1
    subst hx1
    rcases List.mem_map.mp hx with ⟨a, ha, hfa⟩
    exact hany (List.any_eq_true.mpr ⟨a, ha, by simpa using hfa⟩)

theorem dedupe_nodup_fp {α : Type} (fp : α → String) (better : α → α → Bool)
    (l : List α) : ((dedupe fp better l).map fp).Nodup := by
  suffices h : ∀ acc : List α, (acc.map fp).Nodup →
      ((l.foldl (dedupeStep fp better) acc).map fp).Nodup by
    exact h [] (by simp)
  induction l with
  | nil => intro acc hacc; simpa using hacc
  | cons c t ih =>
    intro acc hacc
    exact ih (dedupeStep fp better acc c) (dedupeStep_nodup_fp fp better acc c hacc)

theorem reachableDelayState_cases {s : DelayFilterState} (h : ReachableDelayState s) :
    s = .empty ∨ ∃ d, d ∈ delayOptionValues ∧ s = .num d := by
  induction h with
  | init => exact Or.inl rfl
  | toggle d s hd _ _ =>
    by_cases h2 : s = .num d
    · left; simp [handleDelayFilter, h2]
    · right; exact ⟨d, hd, by simp [handleDelayFilter, h2]⟩

/-! ## Claim theorems -/

/-- C1: for every snapshot and threshold m, querying with a min_delay
filter of m returns exactly the jams whose delay_minutes is at least m
(inclusive), excludes all others, and duplicates no jam. -/
theorem query_min_delay_exact (st : Store) (m : Nat) :
    (query st ⟨none, none, some m⟩).traffic_jams
      = st.jams.filter (fun j => decide (m ≤ j.delay_minutes)) ∧
    (∀ j : TrafficJam, j ∈ (query st ⟨none, none, some m⟩).traffic_jams
      ↔ j ∈ st.jams ∧ m ≤ j.delay_minutes) ∧
    (∀ j : TrafficJam,
      ((query st ⟨none, none, some m⟩).traffic_jams).count j ≤ st.jams.count j) := by
  refine ⟨?_, ?_, ?_⟩
  · show st.jams.filter (jamMatches ⟨none, none, some m⟩)
      = st.jams.filter (fun j => decide (m ≤ j.delay_minutes))
    apply List.filter_congr
    intro j _
    simp [jamMatches]
  · intro j
    simp [query, jamMatches, List.mem_filter]
  · intro j
    have hsub : ((query st ⟨none, none, some m⟩).traffic_jams).Sublist st.jams :=
      List.filter_sublist st.jams
    exact hsub.count_le j

/-- C2: completing a cycle with a fetch failure leaves the Store (and in
particular last_updated) unchanged and only records the failure reason;
the cycle resolves rather than staying in flight. -/
theorem fetch_failure_preserves_snapshot (s : SystemState) (reason : String)
    (h : s.phase = .running) :
    (step s (.complete (.failed reason))).1.store = s.store ∧
    (step s (.complete (.failed reason))).1.store.last_updated = s.store.last_updated ∧
    (step s (.complete (.failed reason))).1.lastFailure = some reason ∧
    (step s (.complete (.failed reason))).1.phase = .idle ∧
    (step s (.complete (.failed reason))).2 = .done := by
  simp [step, h]

theorem fetch_failure_preserves_snapshot_witness :
    (step ⟨.running, ⟨[], [], 5⟩, 1, none⟩ (.complete (.failed "timeout"))).1.store
      = (⟨.running, ⟨[], [], 5⟩, 1, none⟩ : SystemState).store ∧
    (step ⟨.running, ⟨[], [], 5⟩, 1, none⟩ (.complete (.failed "timeout"))).1.store.last_updated
      = (⟨.running, ⟨[], [], 5⟩, 1, none⟩ : SystemState).store.last_updated ∧
    (step ⟨.running, ⟨[], [], 5⟩, 1, none⟩ (.complete (.failed "timeout"))).1.lastFailure
      = some "timeout" ∧
    (step ⟨.running, ⟨[], [], 5⟩, 1, none⟩ (.complete (.failed "timeout"))).1.phase = .idle ∧
    (step ⟨.running, ⟨[], [], 5⟩, 1, none⟩ (.complete (.failed "timeout"))).2 = .done :=
  fetch_failure_preserves_snapshot ⟨.running, ⟨[], [], 5⟩, 1, none⟩ "timeout" rfl

/-- C4: a request whose min_delay fails validation is rejected with a
4xx client error carrying no data (never coerced or ignored), and the
Store is unaffected. -/
theorem invalid_min_delay_rejected (st : Store) (road city : Option String)
    (s : String) (h : decimalNat? s = none) :
    400 ≤ (handleTraffic st ⟨road, city, some s⟩).1.status ∧
    (handleTraffic st ⟨road, city, some s⟩).1.status < 500 ∧
    (handleTraffic st ⟨road, city, some s⟩).1.body = none ∧
    (handleTraffic st ⟨road, city, some s⟩).2 = st := by
  simp [handleTraffic, h]

theorem invalid_min_delay_rejected_witness :
    400 ≤ (handleTraffic ⟨[], [], 0⟩ ⟨none, none, some "abc"⟩).1.status ∧
    (handleTraffic ⟨[], [], 0⟩ ⟨none, none, some "abc"⟩).1.status < 500 ∧
    (handleTraffic ⟨[], [], 0⟩ ⟨none, none, some "abc"⟩).1.body = none ∧
    (handleTraffic ⟨[], [], 0⟩ ⟨none, none, some "abc"⟩).2 = ⟨[], [], 0⟩ :=
  invalid_min_delay_rejected ⟨[], [], 0⟩ none none "abc" rfl

/-- C6: the raw text about the A2 towards Utrecht normalizes to exactly
road A2, direction richting Utrecht, a 12 minute delay, 3.5 km length
and the roadworks cause category. -/
theorem normalize_concrete_scenario :
    (normalizeJam "A2 richting Utrecht, vertraging 12 min, lengte 3.5 km, oorzaak: wegwerkzaamheden").map
      (fun j => (j.road, j.direction, j.delay_minutes, j.length_km, j.cause))
      = some ("A2", "richting Utrecht", 12, (3.5 : ℚ), "roadworks") := rfl

/-- C7: the read/filter path is a pure read: the dashboard poll issues
only a GET of /api/traffic (never a refresh trigger), and the traffic
query handler returns the Store unchanged on every input. -/
theorem read_path_is_pure :
    (∀ md : DelayFilterState, ∀ r ∈ fetchTrafficDataRequests md,
      r.method = .get ∧ r.path = "/api/traffic") ∧
    (∀ (st : Store) (q : RawQuery), (handleTraffic st q).2 = st) := by
  constructor
  · intro md r hr
    simp only [fetchTrafficDataRequests, List.mem_singleton] at hr
    subst hr
    exact ⟨rfl, rfl⟩
  · intro st q
    rcases q with ⟨road, city, md⟩
    cases md with
    | none => rfl
    | some s =>
      rcases h : decimalNat? s with _ | m <;> simp [handleTraffic, h]

theorem read_path_is_pure_witness :
    ((⟨.get, "/api/traffic", buildParamsV1 .empty⟩ : Request).method = .get ∧
     (⟨.get, "/api/traffic", buildParamsV1 .empty⟩ : Request).path = "/api/traffic") ∧
    (handleTraffic ⟨[], [], 7⟩ ⟨some "A2", none, some "5"⟩).2 = ⟨[], [], 7⟩ :=
  ⟨read_path_is_pure.1 .empty ⟨.get, "/api/traffic", buildParamsV1 .empty⟩
    (by simp [fetchTrafficDataRequests]),
   read_path_is_pure.2 ⟨[], [], 7⟩ ⟨some "A2", none, some "5"⟩⟩

/-- C3: a trigger while a cycle is Running is a no-op answered with
alreadyRunning; two back-to-back triggers start exactly one cycle, the
second observes alreadyRunning, and over the whole trace the Store
changes at most once. -/
theorem at_most_one_cycle :
    (∀ s : SystemState, s.phase = .running → step s .trigger = (s, .alreadyRunning)) ∧
    (∀ s : SystemState, s.phase = .idle →
      (step s .trigger).2 = .started ∧
      step (step s .trigger).1 .trigger = ((step s .trigger).1, .alreadyRunning) ∧
      (step (step s .trigger).1 .trigger).1.cyclesStarted = s.cyclesStarted + 1 ∧
      ∀ o : CycleOutcome, storeChanges s [.trigger, .trigger, .complete o] ≤ 1) := by
  constructor
  · intro s h
    simp [step, h]
  · intro s h
    refine ⟨by simp [step, h], by simp [step, h], by simp [step, h], ?_⟩
    intro o
    cases o with
    | success jams cameras t =>
      simp only [storeChanges, step, h]
      by_cases hst : ({ jams := jams, cameras := cameras, last_updated := t } : Store) = s.store <;>
        simp [hst]
    | failed r =>
      simp [storeChanges, step, h]

theorem at_most_one_cycle_witness :
    step ⟨.running, ⟨[], [], 0⟩, 3, none⟩ .trigger
      = (⟨.running, ⟨[], [], 0⟩, 3, none⟩, .alreadyRunning) ∧
    storeChanges ⟨.idle, ⟨[], [], 0⟩, 0, none⟩
      [.trigger, .trigger, .complete (.failed "unreachable")] ≤ 1 :=
  ⟨at_most_one_cycle.1 ⟨.running, ⟨[], [], 0⟩, 3, none⟩ rfl,
   (at_most_one_cycle.2 ⟨.idle, ⟨[], [], 0⟩, 0, none⟩ rfl).2.2.2 (.failed "unreachable")⟩

/-- C5: in every produced cycle result, no two jams share an id and no
two cameras share an id (the Deduplicator postcondition). -/
theorem cycle_entity_ids_unique (jams : List (Normalized TrafficJam))
    (cameras : List (Normalized SpeedCamera)) (t0 t1 : Nat) :
    ((produceCycleResult jams cameras t0 t1).jams.map TrafficJam.id).Nodup ∧
    ((produceCycleResult jams cameras t0 t1).cameras.map SpeedCamera.id).Nodup := by
  constructor
  · have h := dedupe_nodup_fp (fun n : Normalized TrafficJam => jamFingerprint n.entity)
      betterJam jams
    have heq : (produceCycleResult jams cameras t0 t1).jams.map TrafficJam.id
        = (dedupe (fun n : Normalized TrafficJam => jamFingerprint n.entity) betterJam jams).map
            (fun n => jamFingerprint n.entity) := by
      simp only [produceCycleResult, List.map_map]
      rfl
    rw [heq]
    exact h
  · have h := dedupe_nodup_fp (fun n : Normalized SpeedCamera => cameraFingerprint n.entity)
      betterCamera cameras
    have heq : (produceCycleResult jams cameras t0 t1).cameras.map SpeedCamera.id
        = (dedupe (fun n : Normalized SpeedCamera => cameraFingerprint n.entity) betterCamera
            cameras).map (fun n => cameraFingerprint n.entity) := by
      simp only [produceCycleResult, List.map_map]
      rfl
    rw [heq]
    exact h

/-- C8 counterexample: the first dashboard version's default traffic
query carries exactly the parameters roads and cities (comma-joined
lists); none of road, city or min_delay appears, so not every traffic
query uses the road/city/min_delay parameters. -/
theorem query_params_counterexample :
    ((buildParamsV1 .empty).map Prod.fst) = ["roads", "cities"] ∧
    "road" ∉ ((buildParamsV1 .empty).map Prod.fst) ∧
    "city" ∉ ((buildParamsV1 .empty).map Prod.fst) ∧
    "min_delay" ∉ ((buildParamsV1 .empty).map Prod.fst) := by
  refine ⟨rfl, ?_, ?_, ?_⟩ <;> decide

/-- C8 amended: the second dashboard version's queries use only the
road, city and min_delay parameters (each when selected), the first
version's use only roads, cities and min_delay, and every query
response carries total_jams, filtered_jams, traffic_jams, speed_cameras
and last_updated populated from the snapshot. -/
theorem traffic_query_shape :
    (∀ md : DelayFilterState,
      (buildParamsV1 md).map Prod.fst ⊆ ["roads", "cities", "min_delay"]) ∧
    (∀ f : FiltersV2,
      (buildParamsV2 f).map Prod.fst ⊆ ["road", "city", "min_delay"]) ∧
    (∀ (st : Store) (fl : QueryFilters),
      (query st fl).total_jams = st.jams.length ∧
      (query st fl).filtered_jams = (query st fl).traffic_jams.length ∧
      (query st fl).speed_cameras = st.cameras ∧
      (query st fl).last_updated = st.last_updated) := by
  refine ⟨?_, ?_, ?_⟩
  · intro md
    rcases h : minDelayParam md with _ | v
    · have heq : (buildParamsV1 md).map Prod.fst = ["roads", "cities"] := by
        simp [buildParamsV1, h]
      rw [heq]
      decide
    · have heq : (buildParamsV1 md).map Prod.fst = ["roads", "cities", "min_delay"] := by
        simp [buildParamsV1, h]
      rw [heq]
      decide
  · intro f
    rcases f with ⟨r, c, m⟩
    by_cases hr : r = "" <;> by_cases hc : c = "" <;> by_cases hm : m = "" <;>
      simp [buildParamsV2, hr, hc, hm, List.subset_def]
  · intro st fl
    exact ⟨rfl, rfl, rfl, rfl⟩

theorem traffic_query_shape_witness :
    (buildParamsV1 (.num 5)).map Prod.fst ⊆ ["roads", "cities", "min_delay"] ∧
    (buildParamsV2 ⟨"A2", "", "10"⟩).map Prod.fst ⊆ ["road", "city", "min_delay"] ∧
    (query ⟨[], [], 9⟩ ⟨none, none, some 3⟩).total_jams = ([] : List TrafficJam).length :=
  ⟨traffic_query_shape.1 (.num 5), traffic_query_shape.2.1 ⟨"A2", "", "10"⟩,
   (traffic_query_shape.2.2 ⟨[], [], 9⟩ ⟨none, none, some 3⟩).1⟩

/-- C9: handleDelayFilter clears the filter exactly when the current
state already equals the pressed value and selects the value otherwise;
pressing the same value twice from the no-filter state restores the
no-filter state. -/
theorem handleDelayFilter_toggle (d : Nat) (s : DelayFilterState) :
    (handleDelayFilter d s = .empty ↔ s = .num d) ∧
    (handleDelayFilter d s = .num d ↔ s ≠ .num d) ∧
    handleDelayFilter d (handleDelayFilter d .empty) = .empty := by
  by_cases h : s = .num d <;> simp [handleDelayFilter, h]

/-- C10: in every request either dashboard version can actually build,
the min_delay parameter is omitted entirely or carries one of the fixed
option values 1, 5, 10, 15, 20, 25, 30; a non-numeric or negative value
is never sent. -/
theorem min_delay_param_from_fixed_options :
    (∀ s : DelayFilterState, ReachableDelayState s →
      "min_delay" ∉ (buildParamsV1 s).map Prod.fst ∨
        ∃ d, d ∈ delayOptionValues ∧ ("min_delay", toString d) ∈ buildParamsV1 s) ∧
    (∀ f : FiltersV2, ReachableMinDelayV2 f.minDelay →
      "min_delay" ∉ (buildParamsV2 f).map Prod.fst ∨
        ∃ d, d ∈ delayFilterValues ∧ ("min_delay", toString d) ∈ buildParamsV2 f) := by
  constructor
  · intro s hs
    rcases reachableDelayState_cases hs with rfl | ⟨d, hd, rfl⟩
    · left
      decide
    · right
      have hd0 : d ≠ 0 := by
        have hall : ∀ x ∈ delayOptionValues, x ≠ 0 := by decide
        exact hall d hd
      refine ⟨d, hd, ?_⟩
      simp [buildParamsV1, minDelayParam, hd0]
  · intro f hf
    rcases f with ⟨r, c, m⟩
    cases hf with
    | init =>
      left
      by_cases hr : r = "" <;> by_cases hc : c = "" <;>
        simp [buildParamsV2, hr, hc]
    | select v hv =>
      rcases hv with rfl | hv
      · left
        by_cases hr : r = "" <;> by_cases hc : c = "" <;>
          simp [buildParamsV2, hr, hc]
      · right
        rcases List.mem_map.mp hv with ⟨d, hd, rfl⟩
        have hne : toString d ≠ "" := by
          have hall : ∀ x ∈ delayFilterValues, toString x ≠ "" := by decide
          exact hall d hd
        exact ⟨d, hd, by simp [buildParamsV2, hne]⟩

theorem min_delay_param_from_fixed_options_witness :
    ("min_delay" ∉ (buildParamsV1 (.num 5)).map Prod.fst ∨
      ∃ d, d ∈ delayOptionValues ∧ ("min_delay", toString d) ∈ buildParamsV1 (.num 5)) ∧
    ("min_delay" ∉ (buildParamsV2 ⟨"", "", "10"⟩).map Prod.fst ∨
      ∃ d, d ∈ delayFilterValues ∧ ("min_delay", toString d) ∈ buildParamsV2 ⟨"", "", "10"⟩) :=
  ⟨min_delay_param_from_fixed_options.1 (.num 5)
      (ReachableDelayState.toggle 5 .empty (by decide) ReachableDelayState.init),
   min_delay_param_from_fixed_options.2 ⟨"", "", "10"⟩
      (ReachableMinDelayV2.select "10" (Or.inr (by decide)))⟩

end Traffic
